import Mathlib

/-!
# Verification of the mecademic_pydriver message-log and command-dispatch layer

Shallow embedding of `MecademicLog.py` and `RobotController.py`.

A log entry is a `(code, payload)` pair of strings.  The log itself is a
Python `collections.deque` with a maximum length, embedded here as a Lean
`List` kept oldest-first; the deque's FIFO eviction on `extend` is made
explicit in `dequeExtend`.

The socket and the message framer/decoder (`MessageReceiver`,
`parsingLib.messages2codepayload`) are external to the verified core: a log
refresh is modelled as consuming the next batch of already-decoded entries
from an environment queue carried in the dispatcher state.
-/

deriving instance DecidableEq for Except

namespace Meca

/-- A decoded message: `(code, payload)`, both strings. -/
abbrev LogEntry := String × String

/-- Python `s.startswith(p)`, embedded as character-list prefix test. -/
def startswith (s p : String) : Bool :=
  p.data.isPrefixOf s.data

/-- The net effect of `deque.extend` on a deque with `maxlen = cap`:
append on the right, evicting from the left whatever exceeds the capacity. -/
def dequeExtend (cap : Nat) (log batch : List LogEntry) : List LogEntry :=
  (log ++ batch).drop (log.length + batch.length - cap)

/-- `MecademicLog.remove_all_code`: collect every entry whose code starts
with `code`, then remove each collected entry from the deque
(`deque.remove` deletes the first occurrence equal to its argument). -/
def remove_all_code (code : String) (log : List LogEntry) : List LogEntry :=
  let messages_to_remove := log.filter (fun m => startswith m.1 code)
  messages_to_remove.foldl (fun l m => l.erase m) log

/-- `MecademicLog.get_last_code_occurance`: scan the deque from newest to
oldest for the first entry whose code starts with `code`; if found, either
remove every entry with that code prefix (`delete_others = true`), or
remove just the match — the source does `self.log.reverse()`,
`self.log.remove(message)` and then `self.log.reverse` *without call
parentheses*, so in that branch the deque is left reversed.
Returns the found entry (if any) together with the resulting deque. -/
def get_last_code_occurance (log : List LogEntry) (code : String)
    (delete_others : Bool) : Option LogEntry × List LogEntry :=
  match log.reverse.find? (fun m => startswith m.1 code) with
  | none => (none, log)
  | some message =>
    if delete_others then
      (some message, remove_all_code code log)
    else
      (some message, (log.reverse).erase message)

/-- Observable I/O events of the dispatcher: a transmitted wire message
(null terminator included) or a log refresh with its blocking mode and
timeout (seconds). -/
inductive Event where
  | send (msg : String)
  | refresh (wait : Bool) (timeout : Option ℚ)
deriving DecidableEq, Repr

/-- The exceptions the dispatcher can raise, tagged with the reporting
method name:
* `errorDetected` — `handle_specific_error` / `handle_errors` found an
  error entry (Python `RuntimeError` carrying the entry);
* `responseNotFound` — `check_response` found none of the expected codes;
* `invalidArgument` — argument validation failed (Python `ValueError`);
* `protocolFailure` — the response message could not be used (Python
  `TypeError` on `msg[1]` when `msg` is `None`, `IndexError` on a short
  tuple, or an integer-parse failure inside the codec). -/
inductive RCError where
  | errorDetected (method : String) (entry : LogEntry)
  | responseNotFound (method : String) (codes : List String)
  | invalidArgument (method : String)
  | protocolFailure (method : String)
deriving DecidableEq, Repr

/-- State of a connected `RobotController` together with its environment:
`log`/`maxlen` are the `MecademicLog` deque and its capacity,
`motion_commands_response_timeout` the configured short timeout for motion
commands, `env` the queue of incoming decoded-message batches (one batch
consumed per refresh; the socket/framer are external), and `trace` the
events performed so far, oldest first. -/
structure RCState where
  log : List LogEntry
  maxlen : Nat
  motion_commands_response_timeout : ℚ
  env : List (List LogEntry)
  trace : List Event
deriving DecidableEq, Repr

/-- `MecademicLog.update_log` as invoked by the dispatcher: read the
currently available batch (next batch of the environment, `[]` when
nothing arrives before the timeout) and extend the deque with it. -/
def update_log (st : RCState) (wait : Bool) (timeout : Option ℚ) : RCState :=
  { st with
    log := dequeExtend st.maxlen st.log (st.env.headD [])
    env := st.env.tail
    trace := st.trace ++ [Event.refresh wait timeout] }

/-- `RobotController.send_string_command`: transmit `cmd` with a single
null terminator appended. -/
def send_string_command (st : RCState) (cmd : String) : RCState :=
  { st with trace := st.trace ++ [Event.send (cmd ++ "\x00")] }

/-- The loop of `RobotController.check_response`: for each code, search
(and, on a hit, consume all entries with that code prefix); the first hit
returns the updated deque, and exhausting the list means the response was
not found (`none`). -/
def check_response_loop (log : List LogEntry) :
    List String → Option (List LogEntry)
  | [] => none
  | code :: rest =>
    match get_last_code_occurance log code true with
    | (some _, log') => some log'
    | (none, log') => check_response_loop log' rest

/-- `RobotController.check_response`: an empty code list succeeds at once;
otherwise run the search loop, `none` standing for the raised
`RuntimeError` ("code not found in log"). -/
def check_response (log : List LogEntry) (codes : List String) :
    Option (List LogEntry) :=
  if codes.isEmpty then some log else check_response_loop log codes

/-- `RobotController.handle_specific_error`: look the code up (consuming
every entry with that prefix); a hit is raised by the caller. -/
def handle_specific_error (log : List LogEntry) (code : String) :
    Option LogEntry × List LogEntry :=
  get_last_code_occurance log code true

/-- The `for code in errors_code` loop of `send_command_handled`:
run `handle_specific_error` for each code, stopping at the first hit
(`Except.error` carries the entry and the deque at the raise). -/
def handle_specific_errors_loop (log : List LogEntry) :
    List String → Except (LogEntry × List LogEntry) (List LogEntry)
  | [] => .ok log
  | code :: rest =>
    match handle_specific_error log code with
    | (some e, log') => .error (e, log')
    | (none, log') => handle_specific_errors_loop log' rest

/-- `RobotController.handle_errors`: search for any code starting with
`"1"`, passing `delete_others = False` (the source ignores its own
`delete_others` parameter and passes the literal `False`). -/
def handle_errors (log : List LogEntry) : Option LogEntry × List LogEntry :=
  get_last_code_occurance log "1" false

/-- `RobotController.send_command_handled`: poll the log and forget the
designated stale codes, transmit, refresh, check command-specific then
(unless suppressed) generic errors, then look for the expected responses;
on a miss, retry once: refresh again, run the generic error check
(unconditionally in the source) and re-check the responses. -/
def send_command_handled (st : RCState) (cmd method : String)
    (codes_to_remove_from_log errors_code responses_code : List String)
    (handle_all_errors : Bool) (wait : Bool) (timeout : Option ℚ) :
    Except RCError Unit × RCState :=
  let st1 := update_log st false none
  let st1 :=
    { st1 with
      log := codes_to_remove_from_log.foldl
              (fun l code => remove_all_code code l) st1.log }
  let st2 := send_string_command st1 cmd
  let st3 := update_log st2 wait timeout
  match handle_specific_errors_loop st3.log errors_code with
  | .error (e, log') =>
    (.error (.errorDetected method e), { st3 with log := log' })
  | .ok log3 =>
  let st4 := { st3 with log := log3 }
  match (if handle_all_errors then handle_errors st4.log else (none, st4.log)) with
  | (some e, log') =>
    (.error (.errorDetected method e), { st4 with log := log' })
  | (none, log4) =>
  let st5 := { st4 with log := log4 }
  match check_response st5.log responses_code with
  | some log' => (.ok (), { st5 with log := log' })
  | none =>
  let st6 := update_log st5 wait timeout
  match handle_errors st6.log with
  | (some e, log') =>
    (.error (.errorDetected method e), { st6 with log := log' })
  | (none, log6) =>
  let st7 := { st6 with log := log6 }
  match check_response st7.log responses_code with
  | some log' => (.ok (), { st7 with log := log' })
  | none => (.error (.responseNotFound method responses_code), st7)

/-- Modelled from the spec: `parsingLib.build_command` is not under `src/`;
per the wire-encoding contract, a command name with zero arguments is sent
verbatim, and with one or more arguments as `Name(arg0,arg1,...,argN)`,
comma-separated, no trailing comma.  Arguments are taken already rendered
in their natural textual form. -/
def build_command (name : String) (args : List String) : String :=
  if args.isEmpty then name
  else name ++ "(" ++ String.intercalate "," args ++ ")"

/-- Split a character list on commas (the comma-separated sub-values of a
payload). -/
def splitCommas (cs : List Char) : List (List Char) :=
  cs.foldr
    (fun c acc =>
      if c = ',' then [] :: acc
      else
        match acc with
        | t :: ts => (c :: t) :: ts
        | [] => [[c]])
    [[]]

/-- Parse a non-empty run of decimal digits as a natural number. -/
def digitsToNat? (cs : List Char) : Option Nat :=
  if cs.isEmpty then none
  else
    cs.foldl
      (fun acc c =>
        acc.bind (fun n =>
          if c.isDigit then some (10 * n + (c.toNat - 48)) else none))
      (some 0)

/-- Parse an optionally `-`-signed decimal integer; `none` models the
`ValueError` raised by Python `int()` on malformed text. -/
def charsToInt? : List Char → Option Int
  | '-' :: rest => (digitsToNat? rest).map (fun n => -(n : Int))
  | cs => (digitsToNat? cs).map Int.ofNat

/-- Modelled from the spec: `parsingLib.payload2tuple` is not under
`src/`; per the Payload Codec contract it strips the bracket delimiters
and embedded null padding from the payload string, splits the remainder on
commas, and parses each piece as an integer (here with
`output_type=int`). -/
def payload2tuple_int (payload : String) : Option (List Int) :=
  let cs := payload.data
  let cs := match cs with | '[' :: rest => rest | other => other
  let cs := if cs.getLast? = some ']' then cs.dropLast else cs
  let cs := cs.filter (fun c => c ≠ '\x00')
  (splitCommas cs).mapM charsToInt?

/-- One attempt of `RobotController.GetConf` (its body up to the
`if (not msg) and retry` branch, which is abstracted as the continuation
`onMiss`): send `GetConf`, refresh blocking, run the generic error check,
then look for code `"2029"` (consuming all `2029` entries); a hit is
decoded into the `{c1,c3,c5}` dictionary (as an association list), where
a decode failure models the Python `TypeError`/`IndexError` on a
malformed or missing payload. -/
def GetConf_body (st : RCState)
    (onMiss : RCState → Except RCError (List (String × Int)) × RCState) :
    Except RCError (List (String × Int)) × RCState :=
  let st1 := send_string_command st "GetConf"
  let st2 := update_log st1 true none
  match handle_errors st2.log with
  | (some e, log') =>
    (.error (.errorDetected "GetConf" e), { st2 with log := log' })
  | (none, log2) =>
  let st3 := { st2 with log := log2 }
  match get_last_code_occurance st3.log "2029" true with
  | (none, log') => onMiss { st3 with log := log' }
  | (some msg, log') =>
    let st4 := { st3 with log := log' }
    match payload2tuple_int msg.2 with
    | none => (.error (.protocolFailure "GetConf"), st4)
    | some conf =>
      match conf[0]?, conf[1]?, conf[2]? with
      | some c1, some c3, some c5 =>
        (.ok [("c1", c1), ("c3", c3), ("c5", c5)], st4)
      | _, _, _ => (.error (.protocolFailure "GetConf"), st4)

/-- `RobotController.GetConf`: one attempt; on a miss with `retry` set,
one full re-attempt (`GetConf(retry=False)`), whose own miss hits
`payload2tuple(msg[1])` with `msg = None` (Python `TypeError`). -/
def GetConf (st : RCState) (retry : Bool) :
    Except RCError (List (String × Int)) × RCState :=
  GetConf_body st (fun st4 =>
    if retry then
      GetConf_body st4 (fun st8 => (.error (.protocolFailure "GetConf"), st8))
    else (.error (.protocolFailure "GetConf"), st4))

/-- One attempt of `RobotController.GetStatusRobot` (its body up to the
`if (not msg) and retry` branch, abstracted as `onMiss`): send
`GetStatusRobot`, refresh blocking, look for code `"2007"` — no error
handling at all; a hit is decoded into the 7-key status dictionary (as an
association list). -/
def GetStatusRobot_body (st : RCState)
    (onMiss : RCState → Except RCError (List (String × Int)) × RCState) :
    Except RCError (List (String × Int)) × RCState :=
  let st1 := send_string_command st "GetStatusRobot"
  let st2 := update_log st1 true none
  match get_last_code_occurance st2.log "2007" true with
  | (none, log') => onMiss { st2 with log := log' }
  | (some msg, log') =>
    let st3 := { st2 with log := log' }
    match payload2tuple_int msg.2 with
    | none => (.error (.protocolFailure "GetStatusRobot"), st3)
    | some status =>
      match status[0]?, status[1]?, status[2]?, status[3]?,
            status[4]?, status[5]?, status[6]? with
      | some s0, some s1, some s2, some s3, some s4, some s5, some s6 =>
        (.ok [("as", s0), ("hs", s1), ("sm", s2), ("es", s3),
              ("pm", s4), ("eob", s5), ("eom", s6)], st3)
      | _, _, _, _, _, _, _ =>
        (.error (.protocolFailure "GetStatusRobot"), st3)

/-- `RobotController.GetStatusRobot`: one attempt; on a miss with `retry`
set, one full re-attempt (`GetStatusRobot(retry=False)`), whose own miss
hits `payload2tuple(msg[1])` with `msg = None` (Python `TypeError`). -/
def GetStatusRobot (st : RCState) (retry : Bool) :
    Except RCError (List (String × Int)) × RCState :=
  GetStatusRobot_body st (fun st3 =>
    if retry then
      GetStatusRobot_body st3
        (fun st6 => (.error (.protocolFailure "GetStatusRobot"), st6))
    else (.error (.protocolFailure "GetStatusRobot"), st3))

/-- `RobotController.ResetError`: forget all error codes, issue the
verified `ResetError` command with the generic error check suppressed,
then poll once more and purge any remaining error codes. -/
def ResetError (st : RCState) : Except RCError Unit × RCState :=
  match send_command_handled st "ResetError" "ResetError"
          ["1"] ["1025"] ["2005", "2006"] false true none with
  | (.error e, st') => (.error e, st')
  | (.ok _, st') =>
    let st'' := update_log st' false none
    (.ok (), { st'' with log := remove_all_code "1" st''.log })

/-- `RobotController.SetEOB`: pick the acknowledgment code from the
argument (`2055` for disabling, `2054` for enabling; anything else is a
`ValueError`) and issue the verified command.  The source updates no
client-side flag. -/
def SetEOB (st : RCState) (e : Int) : Except RCError Unit × RCState :=
  if e = 0 then
    send_command_handled st (build_command "SetEOB" ["0"]) "cmd"
      [] [] ["2055"] true true none
  else if e = 1 then
    send_command_handled st (build_command "SetEOB" ["1"]) "cmd"
      [] [] ["2054"] true true none
  else (.error (.invalidArgument "SetEOB"), st)

/-- `RobotController.SetEOM`: as `SetEOB`, with acknowledgment codes
`2053` (disable) / `2052` (enable).  The source updates no client-side
flag. -/
def SetEOM (st : RCState) (e : Int) : Except RCError Unit × RCState :=
  if e = 0 then
    send_command_handled st (build_command "SetEOM" ["0"]) "cmd"
      [] [] ["2053"] true true none
  else if e = 1 then
    send_command_handled st (build_command "SetEOM" ["1"]) "cmd"
      [] [] ["2052"] true true none
  else (.error (.invalidArgument "SetEOM"), st)

/-- `RobotController.update_log_for_motion_commands`: a refresh that waits
at most the configured short motion-command timeout. -/
def update_log_for_motion_commands (st : RCState) : RCState :=
  update_log st true (some st.motion_commands_response_timeout)

/-- `RobotController.MoveJoints`: requires exactly 6 joint angles
(rendered as text), transmits `MoveJoints(a1,...,a6)` null-terminated, and
performs the single short motion-command refresh; no response check. -/
def MoveJoints (st : RCState) (joints : List String) :
    Except RCError Unit × RCState :=
  if joints.length ≠ 6 then (.error (.invalidArgument "MoveJoints"), st)
  else
    let st1 := send_string_command st (build_command "MoveJoints" joints)
    (.ok (), update_log_for_motion_commands st1)

/-- `RobotController.SetBlending`: validates `0 ≤ p ≤ 100` before any
transmission, then transmits `SetBlending(p)` and performs the single
short motion-command refresh; no response check. -/
def SetBlending (st : RCState) (p : ℚ) : Except RCError Unit × RCState :=
  if p ≥ 0 ∧ p ≤ 100 then
    let st1 := send_string_command st (build_command "SetBlending" [toString p])
    (.ok (), update_log_for_motion_commands st1)
  else (.error (.invalidArgument "SetBlending"), st)

/-- The dispatcher-held connection state apart from the I/O environment:
the message-log deque, its capacity and the configured motion timeout
(`RobotController.__init__` stores nothing else that a command can
mutate — in particular no EOB/EOM flag). -/
def connState (st : RCState) : List LogEntry × Nat × ℚ :=
  (st.log, st.maxlen, st.motion_commands_response_timeout)


/-- An entry that matches none of the command-specific error codes `ec`,
none of the expected response codes `rc`, and is not a generic error
(code starting with `"1"`). -/
abbrev EntryClean (ec rc : List String) (m : LogEntry) : Prop :=
  (∀ c ∈ ec, startswith m.1 c = false) ∧
  (∀ c ∈ rc, startswith m.1 c = false) ∧
  startswith m.1 "1" = false

/-- The deque contents of `send_command_handled` right after the post-send
refresh (pre-send poll, removal of the designated stale codes, then the
blocking refresh), as a function of the initial state and the codes to
remove. -/
def log_after_send (st : RCState) (ctr : List String) : List LogEntry :=
  dequeExtend st.maxlen
    (List.foldl (fun l code => remove_all_code code l)
      (dequeExtend st.maxlen st.log (st.env.headD [])) ctr)
    (st.env.tail.headD [])

/-! Concrete connection states used to instantiate the theorems below. -/

/-- A state about to run a verified command whose response never arrives:
the log holds an unrelated event entry and the three refreshes deliver
nothing but another unrelated event. -/
def exSt_noresp : RCState :=
  { log := [("3000", "[w]")], maxlen := 5,
    motion_commands_response_timeout := 1,
    env := [[], [("3004", "[x]")], []], trace := [] }

/-- A state whose batch of three incoming entries overflows a capacity-2
log. -/
def exSt_overflow : RCState :=
  { log := [("1005", "[a]")], maxlen := 2,
    motion_commands_response_timeout := 1,
    env := [[("2000", "[b]"), ("3000", "[c]"), ("3004", "[d]")]],
    trace := [] }

/-- A state in which `ResetError`'s post-send refresh delivers a generic
error entry `1013` but never the `2005`/`2006` acknowledgment. -/
def exSt_resetError_err : RCState :=
  { log := [], maxlen := 10, motion_commands_response_timeout := 1,
    env := [[], [("1013", "[x]")], []], trace := [] }

/-- A state in which the post-send refresh delivers both a generic error
entry `1013` and the `2005` acknowledgment. -/
def exSt_resetError_ok : RCState :=
  { log := [], maxlen := 10, motion_commands_response_timeout := 1,
    env := [[], [("1013", "[z]"), ("2005", "[ok]")]], trace := [] }

/-- A state in which `GetConf`'s refresh delivers both a generic error
entry `1013` and the expected `2029` response. -/
def exSt_getconf : RCState :=
  { log := [], maxlen := 10, motion_commands_response_timeout := 1,
    env := [[("1013", "[e]"), ("2029", "[1,-1,1]")]], trace := [] }

/-- A state in which `GetStatusRobot`'s refresh delivers a well-formed
`2007` status response. -/
def exSt_statusOk : RCState :=
  { log := [], maxlen := 10, motion_commands_response_timeout := 1,
    env := [[("2007", "[1,1,1,0,0,1,1]")]], trace := [] }

/-- A state in which no `2007` response ever arrives. -/
def exSt_statusMiss : RCState :=
  { log := [], maxlen := 10, motion_commands_response_timeout := 1,
    env := [[], []], trace := [] }

/-- A state whose refreshes deliver a `2055` acknowledgment (EOB
disabled). -/
def exSt_eob0 : RCState :=
  { log := [], maxlen := 10, motion_commands_response_timeout := 1,
    env := [[], [("2055", "[]")]], trace := [] }

/-- A state whose refreshes deliver a `2054` acknowledgment (EOB
enabled). -/
def exSt_eob1 : RCState :=
  { log := [], maxlen := 10, motion_commands_response_timeout := 1,
    env := [[], [("2054", "[]")]], trace := [] }

/-- A quiescent state for the motion-command scenarios. -/
def exSt_motion : RCState :=
  { log := [], maxlen := 10, motion_commands_response_timeout := 1,
    env := [[("3004", "[m]")]], trace := [] }


/-! ## Helper lemmas about the log operations -/

theorem getLast?_filter_eq_find?_reverse (l : List LogEntry)
    (p : LogEntry → Bool) :
    (l.filter p).getLast? = l.reverse.find? p := by
  rw [← List.head?_reverse, ← List.filter_reverse, List.filter_head?]

/-- The entry returned by `get_last_code_occurance` is the result of the
newest-to-oldest scan, whatever the deletion mode. -/
theorem get_last_code_occurance_fst (log : List LogEntry) (code : String)
    (b : Bool) :
    (get_last_code_occurance log code b).1
      = log.reverse.find? (fun m => startswith m.1 code) := by
  unfold get_last_code_occurance
  cases log.reverse.find? (fun m => startswith m.1 code) with
  | none => rfl
  | some m => cases b <;> rfl

/-- When no entry's code starts with `code`, the search finds nothing and
the deque is untouched. -/
theorem get_last_code_occurance_of_no_match (log : List LogEntry)
    (code : String) (b : Bool)
    (h : ∀ m ∈ log, startswith m.1 code = false) :
    get_last_code_occurance log code b = (none, log) := by
  unfold get_last_code_occurance
  have hfind : log.reverse.find? (fun m => startswith m.1 code) = none := by
    refine List.find?_eq_none.mpr (fun x hx => ?_)
    simp [h x (List.mem_reverse.mp hx)]
  rw [hfind]

theorem foldl_erase_subset (es l : List LogEntry) :
    (es.foldl (fun l m => l.erase m) l) ⊆ l := by
  induction es generalizing l with
  | nil => simp
  | cons e es ih =>
    intro x hx
    exact List.erase_subset (a := e) (l := l) (ih (l.erase e) hx)

theorem foldl_erase_cons_of_ne (es : List LogEntry) (x : LogEntry)
    (l : List LogEntry) (h : ∀ e ∈ es, e ≠ x) :
    es.foldl (fun l m => l.erase m) (x :: l)
      = x :: es.foldl (fun l m => l.erase m) l := by
  induction es generalizing l with
  | nil => rfl
  | cons e es ih =>
    have hxe : (x :: l).erase e = x :: l.erase e := by
      rw [List.erase_cons]
      simp [Ne.symm (h e (by simp))]
    simp only [List.foldl_cons, hxe]
    exact ih (l.erase e) (fun e' he' => h e' (by simp [he']))

theorem foldl_erase_filter (p : LogEntry → Bool) (l : List LogEntry) :
    (l.filter p).foldl (fun l m => l.erase m) l
      = l.filter (fun m => !(p m)) := by
  induction l with
  | nil => rfl
  | cons x xs ih =>
    by_cases hx : p x = true
    · simp only [List.filter_cons, hx, if_pos trivial]
      simp only [List.foldl_cons, List.erase_cons_head]
      simpa [List.filter_cons, hx] using ih
    · have hx' : p x = false := by simpa using hx
      simp only [List.filter_cons, hx']
      rw [foldl_erase_cons_of_ne _ x xs
        (fun e he => by
          intro hex
          have := (List.mem_filter.mp he).2
          rw [hex, hx'] at this
          exact Bool.false_ne_true this)]
      simp [ih, hx']

/-- `remove_all_code` keeps exactly the entries whose code does not start
with `code`, in order. -/
theorem remove_all_code_eq_filter (code : String) (log : List LogEntry) :
    remove_all_code code log
      = log.filter (fun m => !(startswith m.1 code)) := by
  unfold remove_all_code
  exact foldl_erase_filter _ log

theorem remove_all_code_subset (code : String) (log : List LogEntry) :
    remove_all_code code log ⊆ log := by
  rw [remove_all_code_eq_filter]
  exact List.filter_subset' log

theorem mem_dequeExtend (cap : Nat) (log batch : List LogEntry) (m : LogEntry)
    (h : m ∈ dequeExtend cap log batch) : m ∈ log ∨ m ∈ batch := by
  unfold dequeExtend at h
  exact List.mem_append.mp (List.mem_of_mem_drop h)

theorem mem_foldl_remove_all_code (codes : List String)
    (log : List LogEntry) (m : LogEntry)
    (h : m ∈ codes.foldl (fun l code => remove_all_code code l) log) :
    m ∈ log := by
  induction codes generalizing log with
  | nil => exact h
  | cons c cs ih =>
    exact remove_all_code_subset c log (ih (remove_all_code c log) h)

/-- `check_response` on a non-empty code list none of whose codes occurs:
the `RuntimeError` branch (`none`), with the deque untouched. -/
theorem check_response_none (log : List LogEntry) (codes : List String)
    (hne : codes ≠ [])
    (h : ∀ c ∈ codes, ∀ m ∈ log, startswith m.1 c = false) :
    check_response log codes = none := by
  unfold check_response
  rw [if_neg (by simpa using hne)]
  clear hne
  induction codes with
  | nil => rfl
  | cons c cs ih =>
    unfold check_response_loop
    rw [get_last_code_occurance_of_no_match log c true
      (h c (by simp))]
    exact ih (fun c' hc' m hm => h c' (by simp [hc']) m hm)

/-- The command-specific error loop passes untouched when none of the
codes occurs. -/
theorem handle_specific_errors_loop_ok (log : List LogEntry)
    (codes : List String)
    (h : ∀ c ∈ codes, ∀ m ∈ log, startswith m.1 c = false) :
    handle_specific_errors_loop log codes = .ok log := by
  induction codes with
  | nil => rfl
  | cons c cs ih =>
    unfold handle_specific_errors_loop handle_specific_error
    rw [get_last_code_occurance_of_no_match log c true (h c (by simp))]
    exact ih (fun c' hc' m hm => h c' (by simp [hc']) m hm)

/-- The generic error check passes untouched when no code starts with
`"1"`. -/
theorem handle_errors_none (log : List LogEntry)
    (h : ∀ m ∈ log, startswith m.1 "1" = false) :
    handle_errors log = (none, log) :=
  get_last_code_occurance_of_no_match log "1" false h


theorem headD_all {P : LogEntry → Prop} {env : List (List LogEntry)}
    (h : ∀ b ∈ env, ∀ m ∈ b, P m) : ∀ m ∈ env.headD [], P m := by
  cases env with
  | nil => simp
  | cons b bs => exact h b (by simp)

theorem tail_all {P : LogEntry → Prop} {env : List (List LogEntry)}
    (h : ∀ b ∈ env, ∀ m ∈ b, P m) : ∀ b ∈ env.tail, ∀ m ∈ b, P m := by
  cases env with
  | nil => simp
  | cons b bs => exact fun b' hb' => h b' (List.mem_cons_of_mem b hb')

theorem dequeExtend_all {P : LogEntry → Prop} {cap : Nat}
    {log batch : List LogEntry}
    (hl : ∀ m ∈ log, P m) (hb : ∀ m ∈ batch, P m) :
    ∀ m ∈ dequeExtend cap log batch, P m := by
  intro m hm
  rcases mem_dequeExtend cap log batch m hm with h | h
  · exact hl m h
  · exact hb m h

theorem foldl_remove_all {P : LogEntry → Prop} {codes : List String}
    {log : List LogEntry} (hl : ∀ m ∈ log, P m) :
    ∀ m ∈ codes.foldl (fun l code => remove_all_code code l) log, P m :=
  fun m hm => hl m (mem_foldl_remove_all_code codes log m hm)

/-- Case analysis on one `GetStatusRobot` attempt: it either defers to the
miss continuation, fails with the protocol-mismatch error, or returns a
dictionary with exactly the seven status keys. -/
theorem GetStatusRobot_body_cases (st : RCState)
    (onMiss : RCState → Except RCError (List (String × Int)) × RCState)
    (P : Except RCError (List (String × Int)) × RCState → Prop)
    (hmiss : ∀ st', P (onMiss st'))
    (hfail : ∀ st', P (.error (.protocolFailure "GetStatusRobot"), st'))
    (hok : ∀ st' l, l.map Prod.fst = ["as","hs","sm","es","pm","eob","eom"] →
        P (.ok l, st')) :
    P (GetStatusRobot_body st onMiss) := by
  unfold GetStatusRobot_body
  dsimp only
  repeat' split
  · apply hmiss
  · apply hfail
  · apply hok
    simp
  · apply hfail

/-- Case analysis on one `GetConf` attempt: it either defers to the miss
continuation, fails because the generic error check found an entry, fails
with the protocol-mismatch error, or returns a dictionary with exactly the
three configuration keys. -/
theorem GetConf_body_cases (st : RCState)
    (onMiss : RCState → Except RCError (List (String × Int)) × RCState)
    (P : Except RCError (List (String × Int)) × RCState → Prop)
    (hmiss : ∀ st', P (onMiss st'))
    (herr : ∀ st' e, P (.error (.errorDetected "GetConf" e), st'))
    (hfail : ∀ st', P (.error (.protocolFailure "GetConf"), st'))
    (hok : ∀ st' l, l.map Prod.fst = ["c1","c3","c5"] → P (.ok l, st')) :
    P (GetConf_body st onMiss) := by
  unfold GetConf_body
  dsimp only
  repeat' split
  · apply herr
  · apply hmiss
  · apply hfail
  · apply hok
    simp
  · apply hfail

/-- Every branch of `send_command_handled` leaves the log capacity and the
configured motion timeout unchanged. -/
theorem send_command_handled_preserves_config (st : RCState)
    (cmd method : String) (ctr ec rc : List String) (hae w : Bool)
    (t : Option ℚ) :
    ((send_command_handled st cmd method ctr ec rc hae w t).2).maxlen
        = st.maxlen ∧
    ((send_command_handled st cmd method ctr ec rc hae w t).2).motion_commands_response_timeout
        = st.motion_commands_response_timeout := by
  simp only [send_command_handled, update_log, send_string_command]
  repeat' split
  all_goals exact ⟨rfl, rfl⟩


/-! ## Claim C1 -/

/-- Claim C1 (evaluation at the failing input): searching a three-entry
log for the oldest entry's code with `delete_others = False` removes the
match but leaves the two surviving entries in *reversed* (newest-first)
order — the source's `self.log.reverse` on the restore line is missing its
call parentheses, so the claimed preservation of oldest-first order
fails. -/
theorem C1_get_last_delete_others_false_leaves_log_reversed :
    get_last_code_occurance
        [("2000", "[a]"), ("3000", "[b]"), ("3004", "[c]")] "2000" false
      = (some ("2000", "[a]"), [("3004", "[c]"), ("3000", "[b]")]) := by
  decide

/-! ## Claim C2 -/

/-- Claim C2: for every verified command whose expected response codes
never appear in any log entry or incoming batch and for which no error
code can be detected, `send_command_handled` fails with the
response-not-found error, and its event trace shows exactly one pre-send
poll, one transmission, and two post-send refreshes — i.e. exactly one
retry, never zero, never more. -/
theorem C2_verified_command_fails_after_exactly_one_retry :
    ∀ (st : RCState) (cmd method : String)
      (ctr ec rc : List String) (hae w : Bool) (t : Option ℚ),
    rc ≠ [] →
    (∀ m ∈ st.log, EntryClean ec rc m) →
    (∀ b ∈ st.env, ∀ m ∈ b, EntryClean ec rc m) →
    (send_command_handled st cmd method ctr ec rc hae w t).1
        = .error (.responseNotFound method rc) ∧
    (send_command_handled st cmd method ctr ec rc hae w t).2.trace
        = st.trace ++ [Event.refresh false none, Event.send (cmd ++ "\x00"),
                       Event.refresh w t, Event.refresh w t] := by
  intro st cmd method ctr ec rc hae w t hrc hlog henv
  have hC1 : ∀ m ∈ dequeExtend st.maxlen st.log (st.env.headD []),
      EntryClean ec rc m :=
    dequeExtend_all hlog (headD_all henv)
  have hC2 : ∀ m ∈ List.foldl (fun l code => remove_all_code code l)
      (dequeExtend st.maxlen st.log (st.env.headD [])) ctr,
      EntryClean ec rc m :=
    foldl_remove_all hC1
  have hC3 : ∀ m ∈ dequeExtend st.maxlen
      (List.foldl (fun l code => remove_all_code code l)
        (dequeExtend st.maxlen st.log (st.env.headD [])) ctr)
      (st.env.tail.headD []), EntryClean ec rc m :=
    dequeExtend_all hC2 (headD_all (tail_all henv))
  set L3 := dequeExtend st.maxlen
      (List.foldl (fun l code => remove_all_code code l)
        (dequeExtend st.maxlen st.log (st.env.headD [])) ctr)
      (st.env.tail.headD []) with hL3
  have hC4 : ∀ m ∈ dequeExtend st.maxlen L3 (st.env.tail.tail.headD []),
      EntryClean ec rc m :=
    dequeExtend_all hC3 (headD_all (tail_all (tail_all henv)))
  set L4 := dequeExtend st.maxlen L3 (st.env.tail.tail.headD []) with hL4
  have h1 : handle_specific_errors_loop L3 ec = .ok L3 :=
    handle_specific_errors_loop_ok L3 ec
      (fun c hc m hm => (hC3 m hm).1 c hc)
  have hgen : handle_errors L3 = (none, L3) :=
    handle_errors_none L3 (fun m hm => (hC3 m hm).2.2)
  have hif : (if hae = true then handle_errors L3 else (none, L3))
      = (none, L3) := by cases hae <;> simp [hgen]
  have h2 : check_response L3 rc = none :=
    check_response_none L3 rc hrc (fun c hc m hm => (hC3 m hm).2.1 c hc)
  have h4 : handle_errors L4 = (none, L4) :=
    handle_errors_none L4 (fun m hm => (hC4 m hm).2.2)
  have h5 : check_response L4 rc = none :=
    check_response_none L4 rc hrc (fun c hc m hm => (hC4 m hm).2.1 c hc)
  simp only [send_command_handled, update_log, send_string_command, ← hL3]
  simp only [h1]
  simp only [hif]
  simp only [h2]
  simp only [← hL4, h4, h5]
  simp

/-- Claim C2, witnessed on a concrete run of `Home` whose `2002`/`2003`
acknowledgment never arrives. -/
theorem C2_witness :
    (send_command_handled exSt_noresp "Home" "Home" ["1006"] ["1014"]
        ["2002", "2003"] true true none).1
      = .error (.responseNotFound "Home" ["2002", "2003"]) ∧
    (send_command_handled exSt_noresp "Home" "Home" ["1006"] ["1014"]
        ["2002", "2003"] true true none).2.trace
      = exSt_noresp.trace ++
        [Event.refresh false none, Event.send ("Home" ++ "\x00"),
         Event.refresh true none, Event.refresh true none] :=
  C2_verified_command_fails_after_exactly_one_retry exSt_noresp "Home" "Home"
    ["1006"] ["1014"] ["2002", "2003"] true true none (by decide) (by decide)
    (by decide)

/-! ## Claim C3 -/

/-- Claim C3: the deque length never exceeds the configured capacity after
a refresh; the searching/removing operations never grow it; and extending
with a batch of `maxlen + 1` entries keeps exactly the `maxlen` most
recent entries (the batch minus its oldest element), oldest-first order
preserved. -/
theorem C3_log_capacity_invariant_and_fifo_eviction :
    (∀ (st : RCState) (w : Bool) (t : Option ℚ),
        (update_log st w t).log.length ≤ st.maxlen) ∧
    (∀ (log : List LogEntry) (code : String) (b : Bool),
        ((get_last_code_occurance log code b).2).length ≤ log.length) ∧
    (∀ (code : String) (log : List LogEntry),
        (remove_all_code code log).length ≤ log.length) ∧
    (∀ (st : RCState) (w : Bool) (t : Option ℚ),
        (st.env.headD []).length = st.maxlen + 1 →
        (update_log st w t).log = (st.env.headD []).drop 1) := by
  refine ⟨?_, ?_, ?_, ?_⟩
  · intro st w t
    simp only [update_log, dequeExtend, List.length_drop, List.length_append]
    omega
  · intro log code b
    unfold get_last_code_occurance
    cases hf : log.reverse.find? (fun m => startswith m.1 code) with
    | none => simp
    | some m =>
      cases b with
      | true =>
        simp only [if_pos]
        rw [remove_all_code_eq_filter]
        simpa using List.length_filter_le _ log
      | false =>
        simp only [Bool.false_eq_true, if_false]
        have h1 : ((log.reverse).erase m).length ≤ log.reverse.length :=
          List.length_erase_le m log.reverse
        simpa using h1
  · intro code log
    rw [remove_all_code_eq_filter]
    exact List.length_filter_le _ log
  · intro st w t hbatch
    simp only [update_log, dequeExtend]
    have harith : st.log.length + (st.env.headD []).length - st.maxlen
        = st.log.length + 1 := by omega
    rw [harith]
    exact List.drop_append 1

/-- Claim C3, witnessed on a capacity-2 log receiving a batch of three
entries: the two most recent survive, oldest first. -/
theorem C3_witness :
    (update_log exSt_overflow false none).log
      = [("3000", "[c]"), ("3004", "[d]")] :=
  (C3_log_capacity_invariant_and_fifo_eviction.2.2.2 exSt_overflow false none
    (by decide)).trans (by decide)

/-! ## Claim C4 -/

/-- Claim C4: the newest-to-oldest code-prefix search is sound and
complete.  Soundness: whenever it returns an entry, that entry's code
starts with the requested code and it is the most recently appended such
entry (the last element of the matching subsequence).  Completeness:
whenever the matching subsequence is non-empty — i.e. at least one entry
matches — the search returns exactly its last (most recently appended)
element, so in particular it returns *some* entry.  When it returns
nothing, the deque is left untouched. -/
theorem C4_prefix_search_correct :
    ∀ (log : List LogEntry) (code : String) (b : Bool),
    (∀ e, (get_last_code_occurance log code b).1 = some e →
        startswith e.1 code = true ∧
        (log.filter (fun m => startswith m.1 code)).getLast? = some e) ∧
    (∀ e, (log.filter (fun m => startswith m.1 code)).getLast? = some e →
        (get_last_code_occurance log code b).1 = some e) ∧
    ((∃ m ∈ log, startswith m.1 code = true) →
        ∃ e, (get_last_code_occurance log code b).1 = some e) ∧
    ((get_last_code_occurance log code b).1 = none →
        get_last_code_occurance log code b = (none, log)) := by
  intro log code b
  have hcomplete : ∀ e,
      (log.filter (fun m => startswith m.1 code)).getLast? = some e →
      (get_last_code_occurance log code b).1 = some e := by
    intro e he
    rw [get_last_code_occurance_fst, ← getLast?_filter_eq_find?_reverse]
    exact he
  refine ⟨?_, hcomplete, ?_, ?_⟩
  · intro e he
    rw [get_last_code_occurance_fst] at he
    exact ⟨List.find?_some (p := fun m : LogEntry => startswith m.1 code) he,
      by rw [getLast?_filter_eq_find?_reverse]; exact he⟩
  · intro hex
    obtain ⟨m, hm, hp⟩ := hex
    have hne : log.filter (fun m => startswith m.1 code) ≠ [] :=
      List.ne_nil_of_mem (List.mem_filter.mpr ⟨hm, hp⟩)
    cases hl : (log.filter (fun m => startswith m.1 code)).getLast? with
    | none => exact absurd (List.getLast?_eq_none_iff.mp hl) hne
    | some e => exact ⟨e, hcomplete e hl⟩
  · intro hn
    rw [get_last_code_occurance_fst] at hn
    unfold get_last_code_occurance
    rw [hn]

/-- Claim C4, witnessed on a two-match log (`"1"` matches both `1005` and
`1013`): the search is guaranteed to return an entry, namely the newest
match `1013`; and on a no-match search (log untouched). -/
theorem C4_witness :
    (startswith ("1013" : String) "1" = true ∧
      ([(("1005" : String), "[a]"), ("1013", "[b]")].filter
          (fun m => startswith m.1 "1")).getLast? = some ("1013", "[b]")) ∧
    (get_last_code_occurance [(("1005" : String), "[a]"), ("1013", "[b]")]
        "1" false).1 = some ("1013", "[b]") ∧
    (∃ e, (get_last_code_occurance
        [(("1005" : String), "[a]"), ("1013", "[b]")] "1" false).1
          = some e) ∧
    get_last_code_occurance [(("2000" : String), "[x]")] "1" true
      = (none, [("2000", "[x]")]) :=
  ⟨(C4_prefix_search_correct [("1005", "[a]"), ("1013", "[b]")] "1" false).1
      ("1013", "[b]") (by decide),
   (C4_prefix_search_correct [("1005", "[a]"), ("1013", "[b]")] "1"
      false).2.1 ("1013", "[b]") (by decide),
   (C4_prefix_search_correct [("1005", "[a]"), ("1013", "[b]")] "1"
      false).2.2.1 ⟨("1013", "[b]"), by decide, by decide⟩,
   (C4_prefix_search_correct [("2000", "[x]")] "1" true).2.2.2 (by decide)⟩

/-! ## Claim C5 -/

/-- Claim C5 (counterexample): `ResetError` suppresses the generic error
check (`handle_all_errors=False`), yet a run in which the post-send
refresh delivers only the generic error entry `1013` (never `2005`/`2006`)
fails with precisely that entry — the single retry path runs the generic
prefix-`"1"` search unconditionally, so a prefix-`"1"` entry can by itself
make the command fail. -/
theorem C5_counterexample :
    (ResetError exSt_resetError_err).1
      = .error (.errorDetected "ResetError" ("1013", "[x]")) := by
  decide

/-- Claim C5 (amended): with generic-error checking suppressed
(`handle_all_errors = false`), the *initial* post-send check performs no
generic prefix-`"1"` search: whenever the command-specific error codes do
not occur in the post-send log and an expected response code does, the
command succeeds no matter which prefix-`"1"` entries are present.  (The
retry path, reached only when the response is missing on the first check,
does run the generic search unconditionally — see the counterexample.) -/
theorem C5_suppressed_errors_initial_check_only :
    ∀ (st : RCState) (cmd method : String) (ctr ec rc : List String)
      (w : Bool) (t : Option ℚ),
    (∀ c ∈ ec, ∀ m ∈ log_after_send st ctr, startswith m.1 c = false) →
    check_response (log_after_send st ctr) rc ≠ none →
    (send_command_handled st cmd method ctr ec rc false w t).1 = .ok () := by
  intro st cmd method ctr ec rc w t hec hresp
  unfold log_after_send at hec hresp
  set L3 := dequeExtend st.maxlen
      (List.foldl (fun l code => remove_all_code code l)
        (dequeExtend st.maxlen st.log (st.env.headD [])) ctr)
      (st.env.tail.headD []) with hL3
  obtain ⟨l, hl⟩ : ∃ l, check_response L3 rc = some l := by
    cases hc : check_response L3 rc with
    | none => exact absurd hc hresp
    | some l => exact ⟨l, rfl⟩
  have h1 : handle_specific_errors_loop L3 ec = .ok L3 :=
    handle_specific_errors_loop_ok L3 ec hec
  simp only [send_command_handled, update_log, send_string_command, ← hL3]
  simp only [h1]
  simp only [Bool.false_eq_true, if_false]
  simp only [hl]

/-- Claim C5 (amended), witnessed on a `ResetError` run whose post-send
refresh delivers both a generic error entry `1013` and the `2005`
acknowledgment: the command succeeds, showing the initial check performs
no generic error search. -/
theorem C5_witness :
    (send_command_handled exSt_resetError_ok "ResetError" "ResetError" ["1"]
        ["1025"] ["2005", "2006"] false true none).1 = .ok () :=
  C5_suppressed_errors_initial_check_only exSt_resetError_ok "ResetError"
    "ResetError" ["1"] ["1025"] ["2005", "2006"] true none (by decide)
    (by decide)

/-! ## Claim C6 -/

/-- Claim C6 (counterexample): `GetConf` *does* perform error-code
checking — a run whose refresh delivers both the generic error entry
`1013` and the expected `2029` response fails with the error entry instead
of returning the configuration. -/
theorem C6_counterexample :
    (GetConf exSt_getconf true).1
      = .error (.errorDetected "GetConf" ("1013", "[e]")) := by
  decide

/-- Claim C6 (amended): `GetStatusRobot` performs no error-code checking —
its only failure is the protocol-mismatch error, its successes carry
exactly the seven status keys, and when no `2007` response ever arrives it
sends and refreshes exactly twice (one retry) before failing.  `GetConf`,
by contrast, runs the generic prefix-`"1"` error check after each refresh,
so its failures are either an error-detected failure or the
protocol-mismatch error. -/
theorem C6_status_queries_behavior :
    (∀ (st : RCState) (retry : Bool) (x : RCError),
        (GetStatusRobot st retry).1 = .error x →
        x = .protocolFailure "GetStatusRobot") ∧
    (∀ (st : RCState) (retry : Bool) (l : List (String × Int)),
        (GetStatusRobot st retry).1 = .ok l →
        l.map Prod.fst = ["as", "hs", "sm", "es", "pm", "eob", "eom"]) ∧
    (∀ (st : RCState) (retry : Bool) (x : RCError),
        (GetConf st retry).1 = .error x →
        (∃ e, x = .errorDetected "GetConf" e) ∨
        x = .protocolFailure "GetConf") ∧
    (∀ st : RCState,
        (∀ m ∈ st.log, startswith m.1 "2007" = false) →
        (∀ b ∈ st.env, ∀ m ∈ b, startswith m.1 "2007" = false) →
        (GetStatusRobot st true).1
            = .error (.protocolFailure "GetStatusRobot") ∧
        (GetStatusRobot st true).2.trace = st.trace ++
          [Event.send ("GetStatusRobot" ++ "\x00"), Event.refresh true none,
           Event.send ("GetStatusRobot" ++ "\x00"),
           Event.refresh true none]) := by
  refine ⟨?_, ?_, ?_, ?_⟩
  · intro st retry x
    unfold GetStatusRobot
    apply GetStatusRobot_body_cases st _
      (fun r => r.1 = .error x → x = .protocolFailure "GetStatusRobot")
    · intro st'
      split
      · apply GetStatusRobot_body_cases _ _
          (fun r => r.1 = .error x → x = .protocolFailure "GetStatusRobot")
        · intro st''
          intro h
          exact (Except.error.inj h).symm
        · intro st'' h
          exact (Except.error.inj h).symm
        · intro st'' l hl h
          simp at h
      · intro h
        exact (Except.error.inj h).symm
    · intro st' h
      exact (Except.error.inj h).symm
    · intro st' l hl h
      simp at h
  · intro st retry l
    unfold GetStatusRobot
    apply GetStatusRobot_body_cases st _
      (fun r => r.1 = .ok l →
        l.map Prod.fst = ["as", "hs", "sm", "es", "pm", "eob", "eom"])
    · intro st'
      split
      · apply GetStatusRobot_body_cases _ _
          (fun r => r.1 = .ok l →
            l.map Prod.fst = ["as", "hs", "sm", "es", "pm", "eob", "eom"])
        · intro st'' h
          simp at h
        · intro st'' h
          simp at h
        · intro st'' l' hl' h
          rw [Except.ok.inj h] at hl'
          exact hl'
      · intro h
        simp at h
    · intro st' h
      simp at h
    · intro st' l' hl' h
      rw [Except.ok.inj h] at hl'
      exact hl'
  · intro st retry x
    unfold GetConf
    apply GetConf_body_cases st _
      (fun r => r.1 = .error x →
        (∃ e, x = .errorDetected "GetConf" e) ∨
        x = .protocolFailure "GetConf")
    · intro st'
      split
      · apply GetConf_body_cases _ _
          (fun r => r.1 = .error x →
            (∃ e, x = .errorDetected "GetConf" e) ∨
            x = .protocolFailure "GetConf")
        · intro st'' h
          exact .inr (Except.error.inj h).symm
        · intro st'' e h
          exact .inl ⟨e, (Except.error.inj h).symm⟩
        · intro st'' h
          exact .inr (Except.error.inj h).symm
        · intro st'' l hl h
          simp at h
      · intro h
        exact .inr (Except.error.inj h).symm
    · intro st' e h
      exact .inl ⟨e, (Except.error.inj h).symm⟩
    · intro st' h
      exact .inr (Except.error.inj h).symm
    · intro st' l hl h
      simp at h
  · intro st hlog henv
    have hC1 : ∀ m ∈ dequeExtend st.maxlen st.log (st.env.headD []),
        startswith m.1 "2007" = false :=
      dequeExtend_all hlog (headD_all henv)
    have h1 : get_last_code_occurance
        (dequeExtend st.maxlen st.log (st.env.headD [])) "2007" true
        = (none, dequeExtend st.maxlen st.log (st.env.headD [])) :=
      get_last_code_occurance_of_no_match _ _ _ hC1
    have hC2 : ∀ m ∈ dequeExtend st.maxlen
        (dequeExtend st.maxlen st.log (st.env.headD []))
        (st.env.tail.headD []),
        startswith m.1 "2007" = false :=
      dequeExtend_all hC1 (headD_all (tail_all henv))
    have h2 : get_last_code_occurance
        (dequeExtend st.maxlen
          (dequeExtend st.maxlen st.log (st.env.headD []))
          (st.env.tail.headD [])) "2007" true
        = (none, dequeExtend st.maxlen
            (dequeExtend st.maxlen st.log (st.env.headD []))
            (st.env.tail.headD [])) :=
      get_last_code_occurance_of_no_match _ _ _ hC2
    simp only [GetStatusRobot, GetStatusRobot_body, update_log,
      send_string_command, h1, h2]
    constructor
    · rfl
    · simp

/-- Claim C6 (amended), witnessed on a run returning a well-formed status
(seven keys in order) and on a run with no `2007` response, which sends
and refreshes exactly twice before failing. -/
theorem C6_witness :
    ([(("as" : String), (1 : Int)), ("hs", 1), ("sm", 1), ("es", 0),
        ("pm", 0), ("eob", 1), ("eom", 1)].map Prod.fst
      = ["as", "hs", "sm", "es", "pm", "eob", "eom"]) ∧
    ((GetStatusRobot exSt_statusMiss true).1
        = .error (.protocolFailure "GetStatusRobot") ∧
     (GetStatusRobot exSt_statusMiss true).2.trace
        = exSt_statusMiss.trace ++
          [Event.send ("GetStatusRobot" ++ "\x00"), Event.refresh true none,
           Event.send ("GetStatusRobot" ++ "\x00"),
           Event.refresh true none]) :=
  ⟨C6_status_queries_behavior.2.1 exSt_statusOk true _ (by decide),
   C6_status_queries_behavior.2.2.2 exSt_statusMiss (by decide) (by decide)⟩

/-! ## Claim C7 -/

/-- Claim C7 (counterexample): two successful toggles with opposite
arguments — `SetEOB 0` acknowledged by `2055` and `SetEOB 1` acknowledged
by `2054` — start from identical connection states and end in identical
connection states: the dispatcher records no EOB flag at all, so no
"local flag updated after confirmation" exists. -/
theorem C7_counterexample :
    (SetEOB exSt_eob0 0).1 = .ok () ∧ (SetEOB exSt_eob1 1).1 = .ok () ∧
    connState exSt_eob0 = connState exSt_eob1 ∧
    connState (SetEOB exSt_eob0 0).2 = connState (SetEOB exSt_eob1 1).2 := by
  decide

/-- Claim C7 (amended): the dispatcher keeps no client-side EOB/EOM flag:
`SetEOB`/`SetEOM` choose the expected acknowledgment code from the
argument, run the verified protocol, and leave every piece of dispatcher
configuration other than the message log (capacity, motion timeout)
unchanged — on success and on failure alike there is no flag to update. -/
theorem C7_no_client_side_flags :
    ∀ (st : RCState) (e : Int),
    (((SetEOB st e).2).maxlen = st.maxlen ∧
     ((SetEOB st e).2).motion_commands_response_timeout
        = st.motion_commands_response_timeout) ∧
    (((SetEOM st e).2).maxlen = st.maxlen ∧
     ((SetEOM st e).2).motion_commands_response_timeout
        = st.motion_commands_response_timeout) := by
  intro st e
  constructor
  · unfold SetEOB
    split
    · exact send_command_handled_preserves_config ..
    · split
      · exact send_command_handled_preserves_config ..
      · exact ⟨rfl, rfl⟩
  · unfold SetEOM
    split
    · exact send_command_handled_preserves_config ..
    · split
      · exact send_command_handled_preserves_config ..
      · exact ⟨rfl, rfl⟩

/-! ## Claim C8 -/

/-- Claim C8: with exactly six joint angles, `MoveJoints` succeeds on
every state and environment (it never blocks on or checks any response
code), and its event trace appends exactly one transmission —
`MoveJoints(a1,a2,a3,a4,a5,a6)` plus the null terminator — followed by
exactly one refresh bounded by the configured short motion-command
timeout; no refresh precedes the send. -/
theorem C8_movejoints_wire_format_and_single_refresh :
    ∀ (st : RCState) (joints : List String),
    joints.length = 6 →
    (MoveJoints st joints).1 = .ok () ∧
    (MoveJoints st joints).2.trace
      = st.trace ++
        [Event.send ("MoveJoints(" ++ String.intercalate "," joints ++ ")"
            ++ "\x00"),
         Event.refresh true (some st.motion_commands_response_timeout)] := by
  intro st joints h6
  have hne : joints.isEmpty = false := by
    cases joints with
    | nil => simp at h6
    | cons a l => rfl
  simp [MoveJoints, h6, build_command, hne, update_log_for_motion_commands,
    update_log, send_string_command]

/-- Claim C8, witnessed on six concrete angles. -/
theorem C8_witness :
    (MoveJoints exSt_motion ["10", "20", "30", "40", "50", "60"]).1
      = .ok () ∧
    (MoveJoints exSt_motion ["10", "20", "30", "40", "50", "60"]).2.trace
      = exSt_motion.trace ++
        [Event.send ("MoveJoints(" ++
            String.intercalate "," ["10", "20", "30", "40", "50", "60"]
            ++ ")" ++ "\x00"),
         Event.refresh true
           (some exSt_motion.motion_commands_response_timeout)] :=
  C8_movejoints_wire_format_and_single_refresh exSt_motion
    ["10", "20", "30", "40", "50", "60"] (by decide)

/-! ## Claim C9 -/

/-- Claim C9: a blending percentage outside `0–100` makes `SetBlending`
fail with the validation error and return the state completely unchanged —
nothing is transmitted and no refresh happens; a percentage within range
is transmitted (one send, one short refresh). -/
theorem C9_setblending_validation :
    ∀ (st : RCState) (p : ℚ),
    ((p < 0 ∨ 100 < p) →
        SetBlending st p = (.error (.invalidArgument "SetBlending"), st)) ∧
    ((0 ≤ p ∧ p ≤ 100) →
        (SetBlending st p).1 = .ok () ∧
        (SetBlending st p).2.trace
          = st.trace ++
            [Event.send ("SetBlending(" ++ toString p ++ ")" ++ "\x00"),
             Event.refresh true
               (some st.motion_commands_response_timeout)]) := by
  intro st p
  constructor
  · intro hout
    have hcond : ¬(p ≥ 0 ∧ p ≤ 100) := by
      rcases hout with h | h
      · exact fun hc => absurd hc.1 (by linarith)
      · exact fun hc => absurd hc.2 (by linarith)
    simp [SetBlending, hcond]
  · intro hin
    have hcond : p ≥ 0 ∧ p ≤ 100 := ⟨hin.1, hin.2⟩
    simp [SetBlending, hcond, build_command, update_log_for_motion_commands,
      update_log, send_string_command, String.intercalate,
      String.intercalate.go]

/-- Claim C9, witnessed at `p = 150` (rejected, state unchanged) and
`p = 50` (transmitted). -/
theorem C9_witness :
    SetBlending exSt_motion 150
      = (.error (.invalidArgument "SetBlending"), exSt_motion) ∧
    ((SetBlending exSt_motion 50).1 = .ok () ∧
     (SetBlending exSt_motion 50).2.trace
        = exSt_motion.trace ++
          [Event.send ("SetBlending(" ++ toString (50 : ℚ) ++ ")"
              ++ "\x00"),
           Event.refresh true
             (some exSt_motion.motion_commands_response_timeout)]) :=
  ⟨(C9_setblending_validation exSt_motion 150).1 (Or.inr (by norm_num)),
   (C9_setblending_validation exSt_motion 50).2 (by norm_num)⟩

/-! ## Claim C10 -/

/-- Claim C10: when the command-specific error check finds an entry, that
entry is no longer in the deque handed on at the raise (all entries with
its code prefix were removed); when the generic error check finds an
entry, one occurrence of it has been consumed (its multiplicity in the
deque drops by exactly one), so a subsequent query cannot find that same
occurrence. -/
theorem C10_error_detection_consumes_entry :
    ∀ (log : List LogEntry) (code : String) (e : LogEntry),
    ((handle_specific_error log code).1 = some e →
        e ∉ (handle_specific_error log code).2) ∧
    ((handle_errors log).1 = some e →
        ((handle_errors log).2).count e + 1 = log.count e) := by
  intro log code e
  constructor
  · intro h
    have hfind : log.reverse.find? (fun m => startswith m.1 code) = some e := by
      rw [← get_last_code_occurance_fst log code true]
      exact h
    have hp : startswith e.1 code = true :=
      List.find?_some (p := fun m : LogEntry => startswith m.1 code) hfind
    unfold handle_specific_error get_last_code_occurance
    rw [hfind]
    simp only [if_pos]
    rw [remove_all_code_eq_filter]
    intro hmem
    have hh := (List.mem_filter.mp hmem).2
    rw [hp] at hh
    simp at hh
  · intro h
    have hfind : log.reverse.find? (fun m => startswith m.1 "1") = some e := by
      rw [← get_last_code_occurance_fst log "1" false]
      exact h
    have hmem : e ∈ log.reverse := List.mem_of_find?_eq_some hfind
    unfold handle_errors get_last_code_occurance
    rw [hfind]
    simp only [Bool.false_eq_true, if_false]
    rw [List.count_erase_self, List.count_reverse]
    have : 0 < log.count e :=
      List.count_pos_iff.mpr (List.mem_reverse.mp hmem)
    omega

/-- Claim C10, witnessed on a specific-error hit (`1005` consumed, absent
from the deque at the raise) and a generic-error hit (`1013` consumed, its
count dropping from one to zero). -/
theorem C10_witness :
    (("1005", "[x]") ∉
        (handle_specific_error [(("1005" : String), "[x]")] "1005").2) ∧
    ((handle_errors [(("1013" : String), "[y]")]).2).count ("1013", "[y]")
        + 1
      = [(("1013" : String), "[y]")].count ("1013", "[y]") :=
  ⟨(C10_error_detection_consumes_entry [("1005", "[x]")] "1005"
      ("1005", "[x]")).1 (by decide),
   (C10_error_detection_consumes_entry [("1013", "[y]")] "1005"
      ("1013", "[y]")).2 (by decide)⟩

end Meca
